import Mathlib

/-!
Verification of `tk-multi-testapp` (`python/app/dialog.py`).

The repository is a small Qt dialog: an asset tree view backed by an external
`ShotgunEntityModel`, and a task list view backed by an external `ShotgunModel`
behind two proxy models written in this repository:

* `AlphaProxyModel.lessThan` — orders rows by their displayed text;
* `UniqueNameProxyModel.filterAcceptsRow` — hides a candidate row whose
  displayed text equals the text of an already-visible row, with a broad
  `try/except` that logs and rejects the row on any error;
* `AppDialog` — the controller wiring selection, refresh, clear-cache,
  dynamic-sort and teardown events to the models.

Rows of a model are identified with their displayed text (`DisplayRole`
data), which is all the proxy models ever read.  Python exceptions are
modelled by `PyErr`; calls into the external framework that may raise are
modelled by `Except PyErr` valued environment fields.  Calls the controller
makes against the external framework are recorded as `Effect` values.
-/

namespace TestApp

/-- Displayed text of a row (`data(QtCore.Qt.DisplayRole)`). -/
abbrev Content := String

/-- A Python exception value. -/
inductive PyErr where
  | exn (msg : String)
  | attributeError (name : String)
deriving DecidableEq, Repr

/-- An opaque production entity (the payload read from `SG_DATA_ROLE`). -/
structure Entity where
  id : Nat
deriving DecidableEq, Repr

/-- A Task record as consumed by the dialog: a parent-entity back-reference
and its free-text content (the displayed name). -/
structure Task where
  entity : Entity
  content : Content
deriving DecidableEq, Repr

/- ------------------------------------------------------------------
`UniqueNameProxyModel.filterAcceptsRow` (dialog.py lines 64-88)
------------------------------------------------------------------ -/

/-- Qt's base `QSortFilterProxyModel.filterAcceptsRow`: with no filter
pattern configured (as here) it accepts every row.  This is the
`super().filterAcceptsRow(...)` call on line 83. -/
def qtBaseFilterAcceptsRow : Bool := true

/-- The `for row in range(self.rowCount())` loop of `filterAcceptsRow`
(lines 78-82): each visible row's text is read (`self.data(index, DisplayRole)`,
which may raise); if it equals the candidate's text the row is rejected
(`return False`); if the loop completes, the base acceptance is returned
(line 83). -/
def scanVisible (content : Content) : List (Except PyErr Content) → Except PyErr Bool
  | [] => Except.ok qtBaseFilterAcceptsRow
  | r :: rs =>
    match r with
    | Except.error e => Except.error e
    | Except.ok existing =>
      if content == existing then Except.ok false else scanVisible content rs

/-- The whole `try`-block body of `filterAcceptsRow` (lines 72-83):
read the candidate row's text (lines 73-75, may raise), then scan the
currently visible rows. -/
def filterAcceptsRowBody (readContent : Except PyErr Content)
    (visibleRows : List (Except PyErr Content)) : Except PyErr Bool :=
  match readContent with
  | Except.error e => Except.error e
  | Except.ok content => scanVisible content visibleRows

/-- The `logger.error` message of line 85-87. -/
def filterErrorLog : PyErr → String
  | PyErr.exn m => "An error occurred while filtering content: " ++ m
  | PyErr.attributeError n =>
      "An error occurred while filtering content: AttributeError: " ++ n

/-- `UniqueNameProxyModel.filterAcceptsRow` (lines 64-88): runs the body;
any exception is caught, logged, and turned into `False` (lines 84-88).
Returns the acceptance decision together with the emitted log lines. -/
def filterAcceptsRow (readContent : Except PyErr Content)
    (visibleRows : List (Except PyErr Content)) : Bool × List String :=
  match filterAcceptsRowBody readContent visibleRows with
  | Except.ok accept => (accept, [])
  | Except.error e => (false, [filterErrorLog e])

/-- `filterAcceptsRow` on the exception-free path: the candidate's text is
readable and every visible row's text is readable. -/
def filterAcceptsRowPure (visible : List Content) (content : Content) : Bool :=
  (filterAcceptsRow (Except.ok content) (visible.map Except.ok)).1

/-- One repopulation step of the filtered view: a candidate row is appended
to the visible list exactly when `filterAcceptsRow` accepts it against the
rows already visible. -/
def acceptStep (visible : List Content) (c : Content) : List Content :=
  if filterAcceptsRowPure visible c then visible ++ [c] else visible

/-- The visible task list produced by feeding the source rows through the
Duplicate-Suppression Filter in source order, starting from an empty view. -/
def visibleAfter (rows : List Content) : List Content :=
  rows.foldl acceptStep []

/-- Spec-side definition of first-seen-wins ("keeps the first-seen occurrence
of each displayed text"): a row is kept exactly when its text has not been
seen among the earlier rows. -/
def firstSeenFrom (seen : List Content) : List Content → List Content
  | [] => []
  | c :: cs =>
    if seen.elem c then firstSeenFrom seen cs
    else c :: firstSeenFrom (c :: seen) cs

/-- Spec-side dedup of a row sequence, keeping the first occurrence of each
displayed text. -/
def firstSeenWinsSpec (rows : List Content) : List Content :=
  firstSeenFrom [] rows

theorem filterAcceptsRowPure_eq (visible : List Content) (c : Content) :
    filterAcceptsRowPure visible c = !visible.elem c := by
  induction visible with
  | nil => rfl
  | cons v vs ih =>
    simp only [filterAcceptsRowPure, filterAcceptsRow, filterAcceptsRowBody,
      List.map, scanVisible, List.elem_cons] at ih ⊢
    by_cases h : c == v
    · simp [h]
    · simp only [h, if_neg, Bool.false_eq_true, not_false_iff]
      simpa [h] using ih

theorem acceptStep_eq (visible : List Content) (c : Content) :
    acceptStep visible c = if visible.elem c then visible else visible ++ [c] := by
  rw [acceptStep, filterAcceptsRowPure_eq]
  cases h : visible.elem c <;> simp [h]

theorem foldl_acceptStep_eq (rows : List Content) :
    ∀ visible seen : List Content, (∀ c, visible.elem c = seen.elem c) →
      rows.foldl acceptStep visible = visible ++ firstSeenFrom seen rows := by
  induction rows with
  | nil => intro visible seen _; simp [firstSeenFrom]
  | cons c cs ih =>
    intro visible seen h
    rw [List.foldl_cons, acceptStep_eq, firstSeenFrom, h c]
    by_cases hc : c ∈ seen
    · rw [if_pos (List.elem_eq_true_of_mem hc), if_pos (List.elem_eq_true_of_mem hc)]
      exact ih visible seen h
    · rw [if_neg (fun he => hc (List.mem_of_elem_eq_true he)),
        if_neg (fun he => hc (List.mem_of_elem_eq_true he)),
        ih (visible ++ [c]) (c :: seen) ?_]
      · simp
      · intro d
        have hd := h d
        simp only [List.elem_eq_mem, decide_eq_decide] at hd ⊢
        simp only [List.mem_append, List.mem_cons, List.mem_singleton,
          List.not_mem_nil, hd]
        tauto

theorem firstSeenFrom_sublist (rows : List Content) :
    ∀ seen : List Content, (firstSeenFrom seen rows).Sublist rows := by
  induction rows with
  | nil => intro seen; simp [firstSeenFrom]
  | cons c cs ih =>
    intro seen
    rw [firstSeenFrom]
    by_cases hc : c ∈ seen
    · rw [if_pos (List.elem_eq_true_of_mem hc)]
      exact List.Sublist.cons c (ih seen)
    · rw [if_neg (fun he => hc (List.mem_of_elem_eq_true he))]
      exact List.Sublist.cons₂ c (ih (c :: seen))

theorem firstSeenFrom_nodup (rows : List Content) :
    ∀ seen : List Content,
      (firstSeenFrom seen rows).Nodup ∧ ∀ c ∈ firstSeenFrom seen rows, c ∉ seen := by
  induction rows with
  | nil => intro seen; simp [firstSeenFrom]
  | cons c cs ih =>
    intro seen
    rw [firstSeenFrom]
    by_cases hc : c ∈ seen
    · rw [if_pos (List.elem_eq_true_of_mem hc)]
      exact ih seen
    · rw [if_neg (fun he => hc (List.mem_of_elem_eq_true he))]
      obtain ⟨hnd, hout⟩ := ih (c :: seen)
      refine ⟨List.nodup_cons.mpr
        ⟨fun hmem => hout c hmem (List.mem_cons_self c seen), hnd⟩, ?_⟩
      intro d hd
      rcases List.mem_cons.mp hd with hdc | hdtail
      · exact hdc ▸ hc
      · exact fun hdseen => hout d hdtail (List.mem_cons_of_mem c hdseen)

theorem visibleAfter_eq_firstSeen (rows : List Content) :
    visibleAfter rows = firstSeenWinsSpec rows := by
  rw [visibleAfter, firstSeenWinsSpec,
    foldl_acceptStep_eq rows [] [] (fun _ => rfl)]
  simp

theorem visibleAfter_nodup (rows : List Content) : (visibleAfter rows).Nodup := by
  rw [visibleAfter_eq_firstSeen, firstSeenWinsSpec]
  exact (firstSeenFrom_nodup rows []).1

theorem visibleAfter_sublist (rows : List Content) :
    (visibleAfter rows).Sublist rows := by
  rw [visibleAfter_eq_firstSeen, firstSeenWinsSpec]
  exact firstSeenFrom_sublist rows []

/-- C1: the visible task list produced by the Duplicate-Suppression Filter
(`UniqueNameProxyModel.filterAcceptsRow`) has no two rows with equal displayed
text, is a subsequence of the candidate rows fed through it, and keeps exactly
the first-seen occurrence of each displayed text (first-seen-wins). -/
theorem visible_list_nodup_sublist_firstSeen (rows : List Content) :
    (visibleAfter rows).Nodup ∧
    (visibleAfter rows).Sublist rows ∧
    visibleAfter rows = firstSeenWinsSpec rows :=
  ⟨visibleAfter_nodup rows, visibleAfter_sublist rows, visibleAfter_eq_firstSeen rows⟩

/- ------------------------------------------------------------------
`AlphaProxyModel.lessThan` (dialog.py lines 43-57)
------------------------------------------------------------------ -/

/-- Python's `<` on strings, on the underlying code-point sequences: compare
position by position; at the first differing code point the smaller string is
the one with the smaller code point; if one sequence is exhausted first, the
shorter (proper prefix) is smaller. -/
def pyLtChars : List Char → List Char → Bool
  | [], [] => false
  | [], _ :: _ => true
  | _ :: _, [] => false
  | a :: as, b :: bs => if a = b then pyLtChars as bs else decide (a < b)

/-- Python's `lvalue < rvalue` on two displayed strings. -/
def pyLt (a b : Content) : Bool :=
  pyLtChars a.data b.data

/-- `AlphaProxyModel.lessThan` (lines 43-57): reads the two rows' displayed
text from the source model (`itemFromIndex(...).data(DisplayRole)`, a pure
getter) and returns the Python comparison `lvalue < rvalue`. The source model
is represented by the texts it displays at each row position. -/
def lessThan (sourceTexts : Nat → Content) (left right : Nat) : Bool :=
  pyLt (sourceTexts left) (sourceTexts right)

/-- The ordering a Qt ascending sort establishes between adjacent visible
rows `x, y` (in this order): the proxy's `lessThan` does not put `y` strictly
before `x`. -/
def sortRel (a b : Content) : Prop := pyLt b a = false

instance : DecidableRel sortRel :=
  fun a b => instDecidableEqBool (pyLt b a) false

/-- Modelled from the spec: `proxy.sort(0, Qt.AscendingOrder)` — behavior of
the external `QSortFilterProxyModel.sort`, not of code in this repository —
stable-sorts the visible rows with the proxy's `lessThan`, so that every
adjacent pair `x, y` of the result satisfies `¬ lessThan y x`. -/
def sortAsc (l : List Content) : List Content :=
  List.insertionSort sortRel l

/-- `AppDialog.on_task_data_refreshed` (lines 201-202): re-sorts the visible
task view ascending on column 0. -/
def on_task_data_refreshed (visible : List Content) : List Content :=
  sortAsc visible

theorem pyLtChars_iff (l₁ l₂ : List Char) :
    pyLtChars l₁ l₂ = true ↔ List.Lex (· < ·) l₁ l₂ := by
  induction l₁ generalizing l₂ with
  | nil =>
    cases l₂ with
    | nil =>
      simp only [pyLtChars, Bool.false_eq_true]
      exact iff_of_false (fun h => h.elim) (List.Lex.not_nil_right _ _)
    | cons b bs => exact iff_of_true rfl List.Lex.nil
  | cons a as ih =>
    cases l₂ with
    | nil =>
      simp only [pyLtChars, Bool.false_eq_true]
      exact iff_of_false (fun h => h.elim) (List.Lex.not_nil_right _ _)
    | cons b bs =>
      by_cases hab : a = b
      · subst hab
        simp only [pyLtChars, if_pos rfl]
        rw [List.Lex.cons_iff]
        exact ih bs
      · simp only [pyLtChars, if_neg hab]
        constructor
        · intro h
          exact List.Lex.rel (of_decide_eq_true h)
        · intro h
          cases h with
          | cons _ => exact absurd rfl hab
          | rel h' => exact decide_eq_true h'

theorem pyLt_iff_lt (a b : Content) : pyLt a b = true ↔ a < b := by
  rw [pyLt, pyLtChars_iff]
  exact Iff.symm String.lt_iff_toList_lt

theorem sortRel_iff_le (a b : Content) : sortRel a b ↔ a ≤ b := by
  rw [sortRel]
  constructor
  · intro h
    by_contra hnle
    rw [not_le] at hnle
    rw [(pyLt_iff_lt b a).mpr hnle] at h
    cases h
  · intro h
    cases hb : pyLt b a
    · rfl
    · exact absurd ((pyLt_iff_lt b a).mp hb) (not_lt.mpr h)

instance : IsTotal Content sortRel :=
  ⟨fun a b => by
    rw [sortRel_iff_le, sortRel_iff_le]
    exact le_total a b⟩

instance : IsTrans Content sortRel :=
  ⟨fun a b c hab hbc => by
    rw [sortRel_iff_le] at hab hbc ⊢
    exact le_trans hab hbc⟩

theorem sortAsc_sorted (l : List Content) : (sortAsc l).Sorted (· ≤ ·) :=
  (List.sorted_insertionSort sortRel l).imp fun h => (sortRel_iff_le _ _).mp h

theorem sortAsc_perm (l : List Content) : (sortAsc l).Perm l :=
  List.perm_insertionSort sortRel l

/-- C2: `AlphaProxyModel.lessThan` returns `true` exactly when the left row's
displayed text is strictly below the right row's displayed text, and that
order is the standard lexicographic (code-point `Lex`) order on the texts.
The embedding of `lessThan` is a pure function of the source model: it has no
side effects on it. -/
theorem lessThan_iff_lex (sourceTexts : Nat → Content) (left right : Nat) :
    (lessThan sourceTexts left right = true ↔
      sourceTexts left < sourceTexts right) ∧
    (sourceTexts left < sourceTexts right ↔
      List.Lex (· < ·) (sourceTexts left).toList (sourceTexts right).toList) := by
  constructor
  · exact pyLt_iff_lt (sourceTexts left) (sourceTexts right)
  · exact String.lt_iff_toList_lt

/- ------------------------------------------------------------------
`AppDialog` controller (dialog.py lines 91-211)
------------------------------------------------------------------ -/

/-- An outbound call the controller makes against the external framework. -/
inductive Effect where
  | loadData (entityType : String) (fields : List String)
      (filters : List (String × String × Entity)) (hierarchy : List String)
  | refreshData
  | setDynamicSortFilter (enabled : Bool)
deriving DecidableEq, Repr

/-- The controller's own mutable state. `active_entity` is `none` while the
Python attribute `self.active_entity` has never been assigned (reading it then
raises `AttributeError`); `handle_asset_selection` is the only writer.
`dynamicSortFilter` mirrors the tasks proxy model's dynamic sort/filter flag. -/
structure ControllerState where
  active_entity : Option Entity
  dynamicSortFilter : Bool
deriving DecidableEq, Repr

/-- The state set up by `AppDialog.__init__` (lines 96-150): no task query has
been made, `self.active_entity` is never assigned, and the tasks proxy model
is created with `setDynamicSortFilter(True)` (line 138). -/
def initialState : ControllerState :=
  { active_entity := none, dynamicSortFilter := true }

/-- Outcomes of the calls into the external framework and host models, which
may raise arbitrary Python exceptions. -/
structure Env where
  /-- `self._entity_proxy_model.data(index, SG_DATA_ROLE)` (lines 177-179):
  the entity payload at a selected index, or a raised exception. -/
  readSelectedEntity : Nat → Except PyErr Entity
  /-- Outcome of `self._entity_tasks_model._load_data(...)` (lines 188-198)
  for a given filter entity. -/
  loadDataOutcome : Entity → Except PyErr Unit
  /-- Outcome of `self._entity_tasks_model._refresh_data()` (line 199). -/
  refreshDataOutcome : Except PyErr Unit

/-- The fields of the Task query issued by `load_task_data` (line 190). -/
def taskQueryFields : List String :=
  ["content", "sg_task_token", "step.Step.short_name"]

/-- `AppDialog.load_task_data` (lines 186-199): reads `self.active_entity`
(raising `AttributeError` when the attribute was never assigned), issues
`_load_data` on the tasks model with filter `[["entity", "is",
self.active_entity]]` and hierarchy `["content"]`, then `_refresh_data()`
(line 199), either of which may raise. Nothing here catches exceptions: a
raise propagates to the caller. Returns the outbound calls issued before any
raise, together with the exception that propagates, if any. -/
def load_task_data (env : Env) (s : ControllerState) : List Effect × Option PyErr :=
  match s.active_entity with
  | none => ([], some (PyErr.attributeError "active_entity"))
  | some e =>
    match env.loadDataOutcome e with
    | Except.error err => ([], some err)
    | Except.ok _ =>
      match env.refreshDataOutcome with
      | Except.error err =>
          ([Effect.loadData "Task" taskQueryFields [("entity", "is", e)] ["content"]],
           some err)
      | Except.ok _ =>
          ([Effect.loadData "Task" taskQueryFields [("entity", "is", e)] ["content"],
            Effect.refreshData], none)

/-- `self.ui.refresh_button.clicked.connect(self.load_task_data)` (line 145):
the refresh button invokes `load_task_data` directly. -/
def on_refresh_button_clicked (env : Env) (s : ControllerState) :
    List Effect × Option PyErr :=
  load_task_data env s

/-- The `logger.error` message of line 184. -/
def selectionErrorLog : PyErr → String
  | PyErr.exn m => "*** Error selecting source task: " ++ m
  | PyErr.attributeError n => "*** Error selecting source task: AttributeError: " ++ n

/-- `AppDialog.handle_asset_selection` (lines 163-184): inside a `try`-block,
if the new selection is empty, return (lines 173-174); otherwise read the
first selected index's entity payload (may raise), assign
`self.active_entity` (line 181), then call `load_task_data` (may raise).
Any exception is caught and logged (lines 183-184), leaving whatever state
mutations and outbound calls already happened in place. Returns the new
controller state, the effects issued, and the log lines emitted. -/
def handle_asset_selection (env : Env) (s : ControllerState)
    (selectedIndexes : List Nat) : ControllerState × List Effect × List String :=
  match selectedIndexes with
  | [] => (s, [], [])
  | i :: _ =>
    match env.readSelectedEntity i with
    | Except.error err => (s, [], [selectionErrorLog err])
    | Except.ok entity =>
      match load_task_data env { s with active_entity := some entity } with
      | (effs, some err) =>
          ({ s with active_entity := some entity }, effs, [selectionErrorLog err])
      | (effs, none) => ({ s with active_entity := some entity }, effs, [])

/-- `AppDialog.on_dynamic_sort_changed` (lines 208-211): sets the tasks proxy
model's dynamic sort/filter flag to the new checkbox state and forces a task
model refresh. -/
def on_dynamic_sort_changed (s : ControllerState) (state : Bool) :
    ControllerState × List Effect :=
  ({ s with dynamicSortFilter := state },
   [Effect.setDynamicSortFilter state, Effect.refreshData])

/-- Toggling the "dynamic sort" checkbox off and then on: the checkbox's
`stateChanged` signal fires `on_dynamic_sort_changed` once per change. -/
def toggleOffThenOn (s : ControllerState) : ControllerState × List Effect :=
  ((on_dynamic_sort_changed (on_dynamic_sort_changed s false).1 true).1,
   (on_dynamic_sort_changed s false).2 ++
     (on_dynamic_sort_changed (on_dynamic_sort_changed s false).1 true).2)

/-- Which release calls `AppDialog.destroy` performed and whether an
exception escaped it. -/
structure DestroyOutcome where
  entityDestroyCalled : Bool
  tasksDestroyCalled : Bool
  propagated : Option PyErr
deriving DecidableEq, Repr

/-- `AppDialog.destroy` (lines 152-161): one `try`-block runs
`self._entity_model.destroy()` then `self._entity_tasks_model.destroy()`;
`except Exception: pass` swallows any exception silently. The arguments are
the outcomes of the two external `destroy()` calls. -/
def dialogDestroy (entityDestroy tasksDestroy : Except PyErr Unit) : DestroyOutcome :=
  match entityDestroy with
  | Except.error _ =>
      { entityDestroyCalled := true, tasksDestroyCalled := false, propagated := none }
  | Except.ok _ =>
    match tasksDestroy with
    | Except.error _ =>
        { entityDestroyCalled := true, tasksDestroyCalled := true, propagated := none }
    | Except.ok _ =>
        { entityDestroyCalled := true, tasksDestroyCalled := true, propagated := none }

/-- Modelled from the spec: the external `ShotgunModel`, loaded with a Task
query filtered by `[["entity", "is", e]]`, populates with exactly the Task
records of the production database whose parent entity equals `e`, in
database order. The external framework (fetching, caching, notification) is
not code of this repository. -/
def taskModelRows (db : List Task) (e : Entity) : List Task :=
  db.filter fun t => decide (t.entity = e)

/-- The visible task view once the refresh notification for a query on
entity `e` has been handled: source rows display their `content`, the
Duplicate-Suppression Filter drops duplicate texts, and
`on_task_data_refreshed` re-sorts ascending. -/
def taskViewAfterRefresh (db : List Task) (e : Entity) : List Content :=
  on_task_data_refreshed (visibleAfter ((taskModelRows db e).map Task.content))

/- ------------------------------------------------------------------
Concrete fixtures for witnesses and counterexamples
------------------------------------------------------------------ -/

def entityA : Entity := ⟨0⟩

def entityB : Entity := ⟨1⟩

/-- A small production database of Task records. -/
def demoDb : List Task :=
  [⟨entityB, "rig"⟩, ⟨entityA, "paint"⟩, ⟨entityA, "rig"⟩, ⟨entityA, "paint"⟩]

/-- An environment in which every external call succeeds and the selected
index holds `entityA`. -/
def envOk : Env :=
  { readSelectedEntity := fun _ => Except.ok entityA
    loadDataOutcome := fun _ => Except.ok ()
    refreshDataOutcome := Except.ok () }

/-- An environment in which reading the selected entity payload raises. -/
def envReadFails : Env :=
  { readSelectedEntity := fun _ => Except.error (PyErr.exn "read failed")
    loadDataOutcome := fun _ => Except.ok ()
    refreshDataOutcome := Except.ok () }

/-- An environment in which the selected index holds `entityB` but the
framework's `_load_data` call raises. -/
def envLoadFails : Env :=
  { readSelectedEntity := fun _ => Except.ok entityB
    loadDataOutcome := fun _ => Except.error (PyErr.exn "load failed")
    refreshDataOutcome := Except.ok () }

/-- An environment in which the selected index holds `entityB`, `_load_data`
succeeds, but the subsequent `_refresh_data()` call raises. -/
def envRefreshFails : Env :=
  { readSelectedEntity := fun _ => Except.ok entityB
    loadDataOutcome := fun _ => Except.ok ()
    refreshDataOutcome := Except.error (PyErr.exn "refresh failed") }

/-- A controller state in which `entityA` is the active entity. -/
def stateWithA : ControllerState :=
  { active_entity := some entityA, dynamicSortFilter := true }

/- ------------------------------------------------------------------
Claim theorems
------------------------------------------------------------------ -/

/-- C3: once the selection handler makes `e` the active entity,
`load_task_data` issues the Task query whose single filter constrains the
task's parent entity (`"entity"`) to equal `e`, immediately followed by the
refresh request; and once the refresh notification is handled the visible
task view contains only contents of database tasks whose parent entity is
`e`, sorted ascending, with duplicates removed. -/
theorem select_loads_filters_and_sorts (env : Env) (s : ControllerState)
    (i : Nat) (rest : List Nat) (e : Entity) (db : List Task)
    (hread : env.readSelectedEntity i = Except.ok e)
    (hload : env.loadDataOutcome e = Except.ok ())
    (hrefresh : env.refreshDataOutcome = Except.ok ()) :
    handle_asset_selection env s (i :: rest) =
      ({ s with active_entity := some e },
       [Effect.loadData "Task" taskQueryFields [("entity", "is", e)] ["content"],
        Effect.refreshData], []) ∧
    (∀ c ∈ taskViewAfterRefresh db e, ∃ t, t ∈ db ∧ t.entity = e ∧ t.content = c) ∧
    (taskViewAfterRefresh db e).Sorted (· ≤ ·) ∧
    (taskViewAfterRefresh db e).Nodup := by
  refine ⟨?_, ?_, ?_, ?_⟩
  · simp [handle_asset_selection, hread, load_task_data, hload, hrefresh]
  · intro c hc
    rw [taskViewAfterRefresh, on_task_data_refreshed] at hc
    have hc₂ := (sortAsc_perm _).mem_iff.mp hc
    have hc₃ := (visibleAfter_sublist _).subset hc₂
    obtain ⟨t, ht, rfl⟩ := List.mem_map.mp hc₃
    rw [taskModelRows] at ht
    obtain ⟨htdb, hte⟩ := List.mem_filter.mp ht
    exact ⟨t, htdb, of_decide_eq_true hte, rfl⟩
  · exact sortAsc_sorted _
  · exact (sortAsc_perm _).nodup_iff.mpr (visibleAfter_nodup _)

theorem select_loads_filters_and_sorts_witness :
    envOk.readSelectedEntity 0 = Except.ok entityA ∧
    envOk.loadDataOutcome entityA = Except.ok () ∧
    envOk.refreshDataOutcome = Except.ok () ∧
    (handle_asset_selection envOk initialState [0] =
      ({ initialState with active_entity := some entityA },
       [Effect.loadData "Task" taskQueryFields [("entity", "is", entityA)] ["content"],
        Effect.refreshData], []) ∧
     (∀ c ∈ taskViewAfterRefresh demoDb entityA,
        ∃ t, t ∈ demoDb ∧ t.entity = entityA ∧ t.content = c) ∧
     (taskViewAfterRefresh demoDb entityA).Sorted (· ≤ ·) ∧
     (taskViewAfterRefresh demoDb entityA).Nodup) :=
  ⟨rfl, rfl, rfl,
   select_loads_filters_and_sorts envOk initialState 0 [] entityA demoDb rfl rfl rfl⟩

/-- C4: any exception raised inside `filterAcceptsRow`'s try-block — reading
the candidate row's text or comparing it against already-visible rows — is
caught, a log line is emitted, and the method returns `False`: the single row
is hidden and no exception escapes (fail-closed). -/
theorem filterAcceptsRow_fail_closed (readContent : Except PyErr Content)
    (visibleRows : List (Except PyErr Content)) (e : PyErr)
    (h : filterAcceptsRowBody readContent visibleRows = Except.error e) :
    filterAcceptsRow readContent visibleRows = (false, [filterErrorLog e]) := by
  rw [filterAcceptsRow, h]

theorem filterAcceptsRow_fail_closed_witness :
    filterAcceptsRowBody (Except.error (PyErr.exn "bad row")) [] =
      Except.error (PyErr.exn "bad row") ∧
    filterAcceptsRow (Except.error (PyErr.exn "bad row")) [] =
      (false, [filterErrorLog (PyErr.exn "bad row")]) :=
  ⟨rfl, filterAcceptsRow_fail_closed _ _ _ rfl⟩

/-- C5 counterexample: with source contents `["paint", "Paint", "rig"]`, the
visible list after filtering and ascending sort is not the literal sequence
`["paint", "Paint", "rig"]` claimed: `"Paint"` orders strictly before
`"paint"` (code point 80 < 112). -/
theorem paint_scenario_not_as_written :
    sortAsc (visibleAfter ["paint", "Paint", "rig"]) ≠
      ["paint", "Paint", "rig"] := by decide

/-- C5 amended: the Duplicate-Suppression Filter accepts all three rows
(duplicate detection is exact, case-sensitive string equality), and the
visible list after the ascending sort is exactly `["Paint", "paint", "rig"]`. -/
theorem paint_scenario_case_sensitive :
    visibleAfter ["paint", "Paint", "rig"] = ["paint", "Paint", "rig"] ∧
    sortAsc (visibleAfter ["paint", "Paint", "rig"]) =
      ["Paint", "paint", "rig"] := by decide

/-- C6 counterexample: the selection handler caught and logged an exception
(the log output is non-empty), yet the active entity did not retain its
previous value — `self.active_entity` is assigned before `load_task_data()`
is called, so an exception raised by the task load leaves the new entity in
place. -/
theorem selection_error_not_atomic :
    (handle_asset_selection envLoadFails stateWithA [0]).2.2 ≠ [] ∧
    (handle_asset_selection envLoadFails stateWithA [0]).1.active_entity ≠
      stateWithA.active_entity := by decide

/-- C6 amended: any exception during `handle_asset_selection` of a non-empty
selection is caught and logged, but the transition is not atomic on error:
if the exception is raised while extracting the selected entity, the active
entity retains its previous value and no outbound call was issued; if it is
raised by the task-load call, the active entity has already been set to the
newly selected entity (no outbound call issued); and if it is raised by the
subsequent refresh call, the active entity is set to the new entity and the
Task load query has already been issued. -/
theorem handle_asset_selection_error_cases (env : Env) (s : ControllerState)
    (i : Nat) (rest : List Nat) :
    (∀ err, env.readSelectedEntity i = Except.error err →
      handle_asset_selection env s (i :: rest) =
        (s, [], [selectionErrorLog err])) ∧
    (∀ ent err, env.readSelectedEntity i = Except.ok ent →
      env.loadDataOutcome ent = Except.error err →
      handle_asset_selection env s (i :: rest) =
        ({ s with active_entity := some ent }, [], [selectionErrorLog err])) ∧
    (∀ ent err, env.readSelectedEntity i = Except.ok ent →
      env.loadDataOutcome ent = Except.ok () →
      env.refreshDataOutcome = Except.error err →
      handle_asset_selection env s (i :: rest) =
        ({ s with active_entity := some ent },
         [Effect.loadData "Task" taskQueryFields [("entity", "is", ent)] ["content"]],
         [selectionErrorLog err])) := by
  refine ⟨?_, ?_, ?_⟩
  · intro err h
    simp [handle_asset_selection, h]
  · intro ent err hr hl
    simp [handle_asset_selection, load_task_data, hr, hl]
  · intro ent err hr hl hrf
    simp [handle_asset_selection, load_task_data, hr, hl, hrf]

theorem handle_asset_selection_error_cases_witness :
    envReadFails.readSelectedEntity 0 = Except.error (PyErr.exn "read failed") ∧
    handle_asset_selection envReadFails stateWithA [0] =
      (stateWithA, [], [selectionErrorLog (PyErr.exn "read failed")]) ∧
    envLoadFails.readSelectedEntity 0 = Except.ok entityB ∧
    envLoadFails.loadDataOutcome entityB = Except.error (PyErr.exn "load failed") ∧
    handle_asset_selection envLoadFails stateWithA [0] =
      ({ stateWithA with active_entity := some entityB }, [],
       [selectionErrorLog (PyErr.exn "load failed")]) ∧
    envRefreshFails.readSelectedEntity 0 = Except.ok entityB ∧
    envRefreshFails.loadDataOutcome entityB = Except.ok () ∧
    envRefreshFails.refreshDataOutcome = Except.error (PyErr.exn "refresh failed") ∧
    handle_asset_selection envRefreshFails stateWithA [0] =
      ({ stateWithA with active_entity := some entityB },
       [Effect.loadData "Task" taskQueryFields [("entity", "is", entityB)] ["content"]],
       [selectionErrorLog (PyErr.exn "refresh failed")]) :=
  ⟨rfl,
   (handle_asset_selection_error_cases envReadFails stateWithA 0 []).1 _ rfl,
   rfl, rfl,
   (handle_asset_selection_error_cases envLoadFails stateWithA 0 []).2.1 entityB _ rfl rfl,
   rfl, rfl, rfl,
   (handle_asset_selection_error_cases envRefreshFails stateWithA 0 []).2.2 entityB _ rfl rfl rfl⟩

/-- C7 counterexample: toggling the "dynamic sort" checkbox off and then on
fires `on_dynamic_sort_changed` once per state change, so it forces two task
refresh requests, not exactly one. -/
theorem toggle_off_on_two_refreshes :
    (toggleOffThenOn initialState).2.count Effect.refreshData ≠ 1 := by decide

/-- C7 amended: each change of the "dynamic sort" checkbox state sets the
proxy model's dynamic sort/filter flag to the new state and forces exactly
one task refresh request; toggling off then on therefore forces exactly two
additional refresh requests; and after the refresh notification is handled
the task view is still duplicate-free and sorted ascending. -/
theorem dynamic_sort_toggle (s : ControllerState) (b : Bool) (rows : List Content) :
    (on_dynamic_sort_changed s b).1.dynamicSortFilter = b ∧
    (on_dynamic_sort_changed s b).2.count Effect.refreshData = 1 ∧
    (toggleOffThenOn s).2.count Effect.refreshData = 2 ∧
    (on_task_data_refreshed (visibleAfter rows)).Nodup ∧
    (on_task_data_refreshed (visibleAfter rows)).Sorted (· ≤ ·) := by
  refine ⟨rfl, ?_, ?_, ?_, ?_⟩
  · cases b <;> rfl
  · rfl
  · exact (sortAsc_perm _).nodup_iff.mpr (visibleAfter_nodup _)
  · exact sortAsc_sorted _

/-- C8 counterexample: both release calls live in one `try`-block, so when
releasing the entity model raises, the tasks model is never released — the
claim that teardown releases both models fails on that path. -/
theorem destroy_skips_tasks_release :
    (dialogDestroy (Except.error (PyErr.exn "destroy failed"))
        (Except.ok ())).tasksDestroyCalled = false := by decide

/-- C8 amended: on teardown the entity model's release is always attempted
and any exception raised by either release is swallowed silently (nothing
propagates); the tasks model's release is attempted exactly when the entity
model's release did not raise. -/
theorem destroy_best_effort (entityDestroy tasksDestroy : Except PyErr Unit) :
    (dialogDestroy entityDestroy tasksDestroy).propagated = none ∧
    (dialogDestroy entityDestroy tasksDestroy).entityDestroyCalled = true ∧
    ((dialogDestroy entityDestroy tasksDestroy).tasksDestroyCalled = true ↔
      entityDestroy = Except.ok ()) := by
  cases entityDestroy with
  | error e => simp [dialogDestroy]
  | ok u => cases u; cases tasksDestroy <;> simp [dialogDestroy]

/-- C9: an empty selection (deselection) is a no-op: the handler issues no
effect, emits no log line, and returns the controller state — in particular
the active entity — unchanged. -/
theorem deselection_noop (env : Env) (s : ControllerState) :
    handle_asset_selection env s [] = (s, [], []) := rfl

/-- C10: `__init__` never assigns `self.active_entity` (only
`handle_asset_selection` does), so clicking the refresh button — wired
directly to `load_task_data` — before any successful asset selection raises
an uncaught `AttributeError` on `self.active_entity`, whatever the external
environment does. -/
theorem refresh_before_selection_raises (env : Env) :
    initialState.active_entity = none ∧
    on_refresh_button_clicked env initialState =
      ([], some (PyErr.attributeError "active_entity")) :=
  ⟨rfl, rfl⟩

end TestApp
